import Mathlib

/-!
Verification of the uloop differential checker (`uloop/uloop_check.py`) of the
hwpe-mac-engine repository.

The driver script `uloop_check.py` is embedded faithfully below.  The functions
it imports from `uloop_common` (`uloop_execute`, `uloop_state_machine`,
`uloop_load`, `uloop_get_loops`) are not part of the sources at hand; the
driver is therefore parameterised over an abstract model of those collaborators
(`UloopModel`), and a concrete instance is modelled from the specification
where a claim needs the actual FSM behaviour.

Python integers are embedded as `Int` (arbitrary precision, signed); trip
counts as `Nat` (Python's `range(0, n-1)` is empty for `n ≤ 1`, matching
truncated subtraction on `Nat`).  Console output relevant to the claims
(the verbose per-cycle diagnostics) is modelled as an explicit log; the
unbound-variable hazard on `ha..hd` (they are only assigned by a successful
generator pull) is modelled by an `Option` that starts out `none`.
-/

/-- One tuple yielded by the reference generator:
`(a_idx, b_idx, c_idx, d_idx, curr_idx)`; the fifth component is the wrapped
loop counter `(i,)` of the Python source. -/
abbrev RefTuple := Int × Int × Int × Int × Nat

/-- The four accumulator values `(a, b, c, d)`. -/
abbrev Vals := Int × Int × Int × Int

/-- Loop body of `iterate_hl_loop` (source lines 24-36): starting from
accumulators `a b c d` and loop counter `i`, perform `n` more iterations,
each adding `iter_stride` to `a`,`b` and `one_stride` to `c`,`d` and yielding
the updated values together with the counter. -/
def iterate_hl_loop_aux (iter_stride one_stride : Int) :
    Nat → Int → Int → Int → Int → Nat → List RefTuple
  | 0, _, _, _, _, _ => []
  | n + 1, a, b, c, d, i =>
      (a + iter_stride, b + iter_stride, c + one_stride, d + one_stride, i) ::
        iterate_hl_loop_aux iter_stride one_stride n
          (a + iter_stride) (b + iter_stride) (c + one_stride) (d + one_stride) (i + 1)

/-- `iterate_hl_loop(nb_iter, iter_stride, one_stride)` (source lines 24-36):
the full (finite) sequence of values the Python generator yields, i.e. the
loop `for i in range(0, nb_iter-1)` run from all-zero accumulators. -/
def iterate_hl_loop (nb_iter : Nat) (iter_stride one_stride : Int) : List RefTuple :=
  iterate_hl_loop_aux iter_stride one_stride (nb_iter - 1) 0 0 0 0 0

/-- The register file (source lines 48-56): four mutable index accumulators
followed by the three read-only configuration scalars. -/
structure RegFile where
  a : Int
  b : Int
  c : Int
  d : Int
  nb_iter : Int
  iter_stride : Int
  one_stride : Int
deriving DecidableEq

/-- The FSM state tuple `(0, 0, 0, idx)` built at source line 65: three opaque
scalar fields plus the per-level iteration-index list `idx`. -/
structure FsmState where
  f0 : Nat
  f1 : Nat
  f2 : Nat
  idx : List Nat
deriving DecidableEq

/-- Abstract model of the collaborators imported from `uloop_common`, already
specialised to one run's microcode and loop geometry: the executor
(`uloop_execute(state, code, registers)`) and the state machine
(`uloop_state_machine(loops, state, ...)`, returning
`(execute, end, busy, new_state)`). -/
structure UloopModel where
  uloop_execute : FsmState → RegFile → RegFile
  uloop_state_machine : FsmState → Bool × Bool × Bool × FsmState

/-- Diagnostic output events of one run, emitted only in verbose mode:
the per-cycle state dump (`uloop_print_idx`, source line 82) and the
three-line mismatch report (source lines 86-88). -/
inductive LogEvent where
  | printIdx (state : FsmState) (registers : RegFile)
  | errorMsg (hl ul : Vals)
deriving DecidableEq

/-- The mutable state threaded through the driver's cycle loop
(source lines 61-91). `href` holds the last successfully pulled reference
values `ha, hb, hc, hd`; it is `none` before the first successful `next`,
mirroring that those Python variables are unbound until then. -/
structure CycleState where
  registers : RegFile
  state : FsmState
  gen : List RefTuple
  href : Option Vals
  err : Nat
  log : List LogEvent
deriving DecidableEq

/-- Outcome of one iteration of the cycle loop: continue, break out on
`end`, or raise `NameError` (comparison against never-assigned `ha..hd`). -/
inductive CycleOut where
  | next (cs : CycleState)
  | stop (cs : CycleState)
  | nameErr (cs : CycleState)
deriving DecidableEq

/-- The cycle state carried by a `CycleOut`, whichever constructor. -/
def CycleOut.cstate : CycleOut → CycleState
  | .next cs => cs
  | .stop cs => cs
  | .nameErr cs => cs

/-- Whether a `CycleOut` is the `NameError` outcome. -/
def CycleOut.isCrash : CycleOut → Bool
  | .nameErr _ => true
  | _ => false

/-- Result of `uloop_check`: the returned error count together with the
diagnostic log, or an uncaught `NameError`. -/
inductive RunResult where
  | ok (err : Nat) (log : List LogEvent)
  | crashed
deriving DecidableEq

/-- The error count of a run, `none` when the run crashed. -/
def errPart : RunResult → Option Nat
  | .ok e _ => some e
  | .crashed => none

/-- `NB_LOOPS` (source line 21). -/
def NB_LOOPS : Nat := 1

/-- The initial FSM state `(0, 0, 0, [0, ...])` (source lines 62-65). -/
def init_state : FsmState :=
  ⟨0, 0, 0, List.replicate NB_LOOPS 0⟩

/-- The initial register file (source lines 48-56). -/
def init_regs (nb_iter : Nat) (iter_stride one_stride : Int) : RegFile :=
  ⟨0, 0, 0, 0, (nb_iter : Int), iter_stride, one_stride⟩

/-- One pull from the generator (source lines 77-80): on a nonempty sequence
take the first four components of the next tuple, on `StopIteration` keep
the previously held values. -/
def pullVals : List RefTuple → Option Vals → Option Vals
  | t :: _, _ => some (t.1, t.2.1, t.2.2.1, t.2.2.2.1)
  | [], h => h

/-- The generator's remaining sequence after a pull attempt. -/
def genAfterPull : List RefTuple → List RefTuple
  | _ :: rest => rest
  | [] => []

/-- The four accumulators `registers[0:4]` (source line 83). -/
def vals4 (r : RegFile) : Vals :=
  (r.a, r.b, r.c, r.d)

/-- The `busy` flag the state machine reports for the current cycle. -/
def busyOf (M : UloopModel) (cs : CycleState) : Bool :=
  (M.uloop_state_machine cs.state).2.2.1

/-- The register file after the commit decision of the current cycle:
the executor's candidate when `execute` is reported, else unchanged. -/
def committedOf (M : UloopModel) (cs : CycleState) : RegFile :=
  if (M.uloop_state_machine cs.state).1 then
    M.uloop_execute cs.state cs.registers
  else
    cs.registers

/-- One iteration of the driver's cycle loop (source lines 71-91), in source
order: compute the candidate registers from the pre-cycle state; advance the
state machine to `(execute, end, busy, state)`; commit the candidate iff
`execute`; when not `busy`, pull from the generator (keeping the old values
on exhaustion), print the state dump if verbose, and compare the four
accumulators against the pulled values, incrementing `err` on mismatch (the
mismatch report itself is verbose-only); finally break if `end`. -/
def uloop_cycle (M : UloopModel) (verbose : Bool) (cs : CycleState) : CycleOut :=
  let new_registers := M.uloop_execute cs.state cs.registers
  let r := M.uloop_state_machine cs.state
  let execute := r.1
  let ended := r.2.1
  let busy := r.2.2.1
  let state := r.2.2.2
  let registers := if execute then new_registers else cs.registers
  if busy then
    let cs' : CycleState := ⟨registers, state, cs.gen, cs.href, cs.err, cs.log⟩
    if ended then .stop cs' else .next cs'
  else
    let pulled := pullVals cs.gen cs.href
    let gen' := genAfterPull cs.gen
    let log1 := if verbose then cs.log ++ [LogEvent.printIdx state registers] else cs.log
    match pulled with
    | none => .nameErr ⟨registers, state, gen', none, cs.err, log1⟩
    | some h =>
        let u := vals4 registers
        if h ≠ u then
          let log2 := if verbose then log1 ++ [LogEvent.errorMsg h u] else log1
          let cs' : CycleState := ⟨registers, state, gen', some h, cs.err + 1, log2⟩
          if ended then .stop cs' else .next cs'
        else
          let cs' : CycleState := ⟨registers, state, gen', some h, cs.err, log1⟩
          if ended then .stop cs' else .next cs'

/-- The driver's bounded cycle loop `for i in range(0, 1000)` (source line
71), with `fuel` remaining iterations: falling off the end of the range and
breaking on `end` both return the accumulated error count; an uncaught
`NameError` aborts the run. -/
def uloop_check_loop (M : UloopModel) (verbose : Bool) : Nat → CycleState → RunResult
  | 0, cs => .ok cs.err cs.log
  | fuel + 1, cs =>
      match uloop_cycle M verbose cs with
      | .nameErr _ => .crashed
      | .stop cs' => .ok cs'.err cs'.log
      | .next cs' => uloop_check_loop M verbose fuel cs'

/-- `uloop_check(nb_iter, iter_stride, one_stride, verbose)` (source lines
40-94), parameterised over the `uloop_common` collaborators `M`. -/
def uloop_check (M : UloopModel) (nb_iter : Nat) (iter_stride one_stride : Int)
    (verbose : Bool) : RunResult :=
  uloop_check_loop M verbose 1000
    ⟨init_regs nb_iter iter_stride one_stride, init_state,
      iterate_hl_loop nb_iter iter_stride one_stride, none, 0, []⟩

/-- Modelled from the spec: `uloop_execute` of `uloop_common` (absent from
the sources), specialised to the single-loop microcode the driver loads.  Per
sections 4.2 and 8.2 of the specification it applies the configured affine
stride update to the mutable accumulators — `a`,`b` advance by `iter_stride`
and `c`,`d` by `one_stride` — and never writes the configuration scalars. -/
def spec_uloop_execute (_s : FsmState) (r : RegFile) : RegFile :=
  { r with
      a := r.a + r.iter_stride
      b := r.b + r.iter_stride
      c := r.c + r.one_stride
      d := r.d + r.one_stride }

/-- Modelled from the spec: `uloop_state_machine` of `uloop_common` (absent
from the sources), specialised to nesting depth 1 with trip count `nb_iter`.
Per sections 4.3 and 8 of the specification: each non-terminal cycle commits
one stride step (`execute = true`, `busy = false`) advancing the per-level
iteration index; the settled indices are `1 .. nb_iter - 1`, so together with
the all-zero initial state a run settles once per logical iteration; `end`
is reported exactly on the cycle reaching the last iteration; a run with
`nb_iter ≤ 1` terminates in a single stalled teardown cycle (`busy = true`,
no commit), giving the zero comparison cycles the specification requires. -/
def spec_uloop_state_machine (nb_iter : Nat) (s : FsmState) :
    Bool × Bool × Bool × FsmState :=
  let i := s.idx.headD 0
  if nb_iter ≤ i + 1 then
    (false, true, true, s)
  else
    (true, i + 2 == nb_iter, false, ⟨s.f0, s.f1, s.f2, [i + 1]⟩)

/-- The spec-modelled collaborators for one run of trip count `nb_iter`. -/
def specModel (nb_iter : Nat) : UloopModel :=
  ⟨spec_uloop_execute, spec_uloop_state_machine nb_iter⟩

/-- The stride-corrupted executor of specification section 8.6: identical to
`spec_uloop_execute` except that `iter_stride` and `one_stride` are swapped.
Used to exercise the sweep's failure path. -/
def swap_uloop_execute (_s : FsmState) (r : RegFile) : RegFile :=
  { r with
      a := r.a + r.one_stride
      b := r.b + r.one_stride
      c := r.c + r.iter_stride
      d := r.d + r.iter_stride }

/-- The spec-modelled collaborators with the corrupted executor. -/
def swapModel (nb_iter : Nat) : UloopModel :=
  ⟨swap_uloop_execute, spec_uloop_state_machine nb_iter⟩

/-- Whether the state machine reports `end = true` at least once during the
next `n` cycles when stepped from `s` (the driver calls it exactly once per
cycle of its loop). -/
def fsm_end_within (M : UloopModel) : Nat → FsmState → Bool
  | 0, _ => false
  | n + 1, s =>
      let r := M.uloop_state_machine s
      r.2.1 || fsm_end_within M n r.2.2.2

/-- The sequence of `(execute, end, busy)` triples of the cycles the driver
actually runs: stepping stops after the cycle that reports `end` (or when
the fuel runs out). -/
def fsm_driver_trace (M : UloopModel) : Nat → FsmState → List (Bool × Bool × Bool)
  | 0, _ => []
  | n + 1, s =>
      let r := M.uloop_state_machine s
      if r.2.1 then [(r.1, r.2.1, r.2.2.1)]
      else (r.1, r.2.1, r.2.2.1) :: fsm_driver_trace M n r.2.2.2

/-- The error count `uloop_check` returns, as the integer the module-level
sweep consumes (a crashed run would propagate the exception instead of
returning; this projection is only applied to non-crashing runs). -/
def errCount : RunResult → Nat
  | .ok e _ => e
  | .crashed => 0

/-- `uloop_check` as the sweep sees it: a family of collaborators indexed by
the trip count (the driver rebuilds the loop geometry from `nb_iter` on every
call), applied to a configuration and returning the error count. -/
def check_of (mk : Nat → UloopModel) (nb_iter : Nat) (iter_stride one_stride : Int)
    (verbose : Bool) : Nat :=
  errCount (uloop_check (mk nb_iter) nb_iter iter_stride one_stride verbose)

/-- Inner sweep loop `for iter_stride in (1,16,32)` (source lines 97-101),
over the remaining strides, carrying the current values of the Python
variables `iter_stride` and `err`; returns the calls made (as
`(nb_iter, iter_stride, one_stride, verbose)` tuples in order), the final
`err`, and the final `iter_stride`.  `break` on `err > 0` ends the loop. -/
def sweep_inner (check : Nat → Int → Int → Bool → Nat) (nb_iter : Nat) :
    List Int → Int → Nat → List (Nat × Int × Int × Bool) × Nat × Int
  | [], cur, err => ([], err, cur)
  | s :: rest, _, _ =>
      let e := check nb_iter s 1 false
      if 0 < e then
        ([(nb_iter, s, 1, false)], e, s)
      else
        let r := sweep_inner check nb_iter rest s e
        ((nb_iter, s, 1, false) :: r.1, r.2)

/-- Outer sweep loop `for nb_iter in (16,32,64)` (source lines 96-103), over
the remaining trip counts, carrying the current `nb_iter`, `iter_stride` and
`err`; returns the calls made, the final `err`, and the final values of
`nb_iter` and `iter_stride`. -/
def sweep_outer (check : Nat → Int → Int → Bool → Nat) :
    List Nat → Nat → Int → Nat →
      List (Nat × Int × Int × Bool) × Nat × Nat × Int
  | [], n, s, err => ([], err, n, s)
  | nb :: rest, _, s, _ =>
      let r := sweep_inner check nb [1, 16, 32] s 0
      if 0 < r.2.1 then
        (r.1, r.2.1, nb, r.2.2)
      else
        let r2 := sweep_outer check rest nb r.2.2 r.2.1
        (r.1 ++ r2.1, r2.2)

/-- Result of running the whole script: every `uloop_check` call made (in
order, with its arguments), the final value of the module-level `err`, and
the process exit status. -/
structure SweepResult where
  calls : List (Nat × Int × Int × Bool)
  finalErr : Nat
  exitCode : Nat
deriving DecidableEq

/-- The module-level sweep (source lines 96-105): run the nested loops,
breaking out of both on the first nonzero error count; afterwards, if
`err > 0`, re-run `uloop_check` once with the current (failing) configuration
and `verbose=True`.  The script contains no `sys.exit` and does not raise:
after its last statement the interpreter exits normally, so the process exit
status is 0 on every non-crashing execution, whatever the error counts. -/
def module_main (check : Nat → Int → Int → Bool → Nat) : SweepResult :=
  let r := sweep_outer check [16, 32, 64] 0 0 0
  if 0 < r.2.1 then
    let e2 := check r.2.2.1 r.2.2.2 1 true
    ⟨r.1 ++ [(r.2.2.1, r.2.2.2, 1, true)], e2, 0⟩
  else
    ⟨r.1, r.2.1, 0⟩

/-! ## Specification-worded re-statements

The following definitions transcribe the *specification's* description of the
driver cycle and of the sweep, to be compared against the source-derived
definitions above. -/

/-- Spec phase (1): compute the candidate register file from the pre-cycle
FSM state and registers via the executor. -/
def specPhase_candidate (M : UloopModel) (cs : CycleState) : RegFile :=
  M.uloop_execute cs.state cs.registers

/-- Spec phase (2): advance the FSM state, obtaining
`(execute, end, busy, newState)`. -/
def specPhase_advance (M : UloopModel) (cs : CycleState) :
    Bool × Bool × Bool × FsmState :=
  M.uloop_state_machine cs.state

/-- Spec phase (3): commit the candidate registers if and only if `execute`
is true. -/
def specPhase_commit (execute : Bool) (candidate old : RegFile) : RegFile :=
  if execute then candidate else old

/-- Spec phase (4): pull one value from the reference generator (keeping the
last-pulled value when exhausted) and compare the four accumulators against
it, incrementing the error counter on mismatch; diagnostics are emitted only
in verbose mode.  The first component flags the unbound-reference crash
(no value was ever pulled successfully). -/
def specPhase_compare (verbose : Bool) (state : FsmState) (registers : RegFile)
    (gen : List RefTuple) (href : Option Vals) (err : Nat) (log : List LogEvent) :
    Bool × CycleState :=
  let log1 := if verbose then log ++ [LogEvent.printIdx state registers] else log
  match pullVals gen href with
  | none => (true, ⟨registers, state, genAfterPull gen, none, err, log1⟩)
  | some h =>
      if h ≠ vals4 registers then
        (false, ⟨registers, state, genAfterPull gen, some h, err + 1,
          if verbose then log1 ++ [LogEvent.errorMsg h (vals4 registers)] else log1⟩)
      else
        (false, ⟨registers, state, genAfterPull gen, some h, err, log1⟩)

/-- The driver cycle as the specification words it: phases (1)-(4) in order,
then (5) stop the loop early if `end` is true.  When `busy` is reported the
comparison phase is skipped entirely. -/
def uloop_cycle_spec (M : UloopModel) (verbose : Bool) (cs : CycleState) : CycleOut :=
  let candidate := specPhase_candidate M cs
  let adv := specPhase_advance M cs
  let registers := specPhase_commit adv.1 candidate cs.registers
  if adv.2.2.1 then
    let cs' : CycleState := ⟨registers, adv.2.2.2, cs.gen, cs.href, cs.err, cs.log⟩
    if adv.2.1 then .stop cs' else .next cs'
  else
    let c := specPhase_compare verbose adv.2.2.2 registers cs.gen cs.href cs.err cs.log
    if c.1 then .nameErr c.2
    else if adv.2.1 then .stop c.2 else .next c.2

/-- The bounded driver loop built on the spec-worded cycle. -/
def uloop_check_loop_spec (M : UloopModel) (verbose : Bool) :
    Nat → CycleState → RunResult
  | 0, cs => .ok cs.err cs.log
  | fuel + 1, cs =>
      match uloop_cycle_spec M verbose cs with
      | .nameErr _ => .crashed
      | .stop cs' => .ok cs'.err cs'.log
      | .next cs' => uloop_check_loop_spec M verbose fuel cs'

/-- The driver as the specification words it. -/
def uloop_check_spec (M : UloopModel) (nb_iter : Nat) (iter_stride one_stride : Int)
    (verbose : Bool) : RunResult :=
  uloop_check_loop_spec M verbose 1000
    ⟨init_regs nb_iter iter_stride one_stride, init_state,
      iterate_hl_loop nb_iter iter_stride one_stride, none, 0, []⟩

/-- The sweep's configuration matrix in its fixed order:
`nb_iter ∈ (16,32,64)` outer, `iter_stride ∈ (1,16,32)` inner. -/
def sweepCfgs : List (Nat × Int) :=
  [(16, 1), (16, 16), (16, 32), (32, 1), (32, 16), (32, 32), (64, 1), (64, 16), (64, 32)]

/-- Whether a swept configuration fails: its non-verbose run (with
`one_stride = 1`) returns a nonzero error count. -/
def failsAt (check : Nat → Int → Int → Bool → Nat) (p : Nat × Int) : Bool :=
  0 < check p.1 p.2 1 false

/-- The call sequence the sweep contract prescribes: the configurations in
matrix order up to and including the first failing one (all non-verbose,
always with `one_stride = 1`), followed by a single verbose re-execution of
exactly the failing configuration; when no configuration fails, all nine are
run and no rerun occurs. -/
def sweepSpecCalls (check : Nat → Int → Int → Bool → Nat) :
    List (Nat × Int × Int × Bool) :=
  match sweepCfgs.find? (failsAt check) with
  | none => sweepCfgs.map (fun p => (p.1, p.2, 1, false))
  | some p =>
      (sweepCfgs.takeWhile (fun q => !failsAt check q)).map
          (fun q => (q.1, q.2, 1, false))
        ++ [(p.1, p.2, 1, false), (p.1, p.2, 1, true)]

/-- Two consecutive invocations of `uloop_check` with identical arguments,
as the script performs on a failing configuration (modulo verbosity). -/
def run_twice (M : UloopModel) (nb_iter : Nat) (iter_stride one_stride : Int)
    (verbose : Bool) : RunResult × RunResult :=
  (uloop_check M nb_iter iter_stride one_stride verbose,
   uloop_check M nb_iter iter_stride one_stride verbose)

/-! ## Helper lemmas -/

/-- Length of the generator's remaining sequence. -/
theorem iterate_hl_loop_aux_length (iter_stride one_stride : Int) :
    ∀ (n : Nat) (a b c d : Int) (i : Nat),
      (iterate_hl_loop_aux iter_stride one_stride n a b c d i).length = n := by
  intro n
  induction n with
  | zero => intro a b c d i; rfl
  | succ m ih =>
      intro a b c d i
      simp [iterate_hl_loop_aux, ih]

/-- Closed form of the generator's remaining sequence: the `j`-th element
(0-based) adds `j + 1` further stride steps to the current accumulators. -/
theorem iterate_hl_loop_aux_getElem (iter_stride one_stride : Int) :
    ∀ (n j : Nat), j < n → ∀ (a b c d : Int) (i : Nat),
      (iterate_hl_loop_aux iter_stride one_stride n a b c d i)[j]? =
        some (a + ((j : Int) + 1) * iter_stride, b + ((j : Int) + 1) * iter_stride,
          c + ((j : Int) + 1) * one_stride, d + ((j : Int) + 1) * one_stride, i + j) := by
  intro n
  induction n with
  | zero => intro j hj; omega
  | succ m ih =>
      intro j hj a b c d i
      cases j with
      | zero =>
          simp [iterate_hl_loop_aux]
      | succ k =>
          have hk : k < m := by omega
          have := ih k hk (a + iter_stride) (b + iter_stride) (c + one_stride)
            (d + one_stride) (i + 1)
          simp only [iterate_hl_loop_aux, List.getElem?_cons_succ, this]
          refine congrArg some ?_
          refine Prod.ext ?_ (Prod.ext ?_ (Prod.ext ?_ (Prod.ext ?_ ?_)))
          · push_cast; ring
          · push_cast; ring
          · push_cast; ring
          · push_cast; ring
          · simp; omega

/-- The spec-worded cycle computes exactly the source cycle. -/
theorem uloop_cycle_spec_eq (M : UloopModel) (v : Bool) (cs : CycleState) :
    uloop_cycle_spec M v cs = uloop_cycle M v cs := by
  obtain ⟨regs, st, gen, href, err, log⟩ := cs
  unfold uloop_cycle_spec uloop_cycle specPhase_candidate specPhase_advance
    specPhase_commit specPhase_compare
  rcases hr : M.uloop_state_machine st with ⟨e, en, bu, s'⟩
  cases bu
  · cases hp : pullVals gen href with
    | none => cases en <;> simp [hp]
    | some h =>
        cases en <;>
          by_cases hv : h = vals4 (if e = true then M.uloop_execute st regs else regs) <;>
            simp [hp, hv]
  · cases en <;> simp

/-- The spec-worded loop computes exactly the source loop. -/
theorem uloop_check_loop_spec_eq (M : UloopModel) (v : Bool) :
    ∀ (fuel : Nat) (cs : CycleState),
      uloop_check_loop_spec M v fuel cs = uloop_check_loop M v fuel cs := by
  intro fuel
  induction fuel with
  | zero => intro cs; rfl
  | succ n ih =>
      intro cs
      simp only [uloop_check_loop_spec, uloop_check_loop, uloop_cycle_spec_eq]
      cases uloop_cycle M v cs with
      | nameErr cs' => rfl
      | stop cs' => rfl
      | next cs' => exact ih cs'

/-- The parts of a cycle state other than the diagnostic log. -/
def coreOf (cs : CycleState) : RegFile × FsmState × List RefTuple × Option Vals × Nat :=
  (cs.registers, cs.state, cs.gen, cs.href, cs.err)

/-- The constructor tag of a cycle outcome. -/
def tagOf : CycleOut → Nat
  | .next _ => 0
  | .stop _ => 1
  | .nameErr _ => 2

/-- The verbosity flag influences only the log: from cycle states equal up to
their logs, any two verbosity settings produce the same outcome kind and the
same log-stripped cycle state. -/
theorem uloop_cycle_core_eq (M : UloopModel) (v1 v2 : Bool) (cs1 cs2 : CycleState)
    (h : coreOf cs1 = coreOf cs2) :
    tagOf (uloop_cycle M v1 cs1) = tagOf (uloop_cycle M v2 cs2) ∧
      coreOf (uloop_cycle M v1 cs1).cstate = coreOf (uloop_cycle M v2 cs2).cstate := by
  obtain ⟨regs, st, gen, href, err, log1⟩ := cs1
  obtain ⟨regs2, st2, gen2, href2, err2, log2⟩ := cs2
  simp only [coreOf, Prod.mk.injEq] at h
  obtain ⟨h1, h2, h3, h4, h5⟩ := h
  subst h1; subst h2; subst h3; subst h4; subst h5
  unfold uloop_cycle
  rcases hr : M.uloop_state_machine st with ⟨e, en, bu, s'⟩
  cases bu
  · cases hp : pullVals gen href with
    | none => cases en <;> simp [hp, CycleOut.cstate, tagOf, coreOf]
    | some h =>
        cases en <;>
          by_cases hv : h = vals4 (if e = true then M.uloop_execute st regs else regs) <;>
            simp [hp, hv, CycleOut.cstate, tagOf, coreOf]
  · cases en <;> simp [CycleOut.cstate, tagOf, coreOf]

/-- The loop's returned error count (and whether it crashes) is independent
of the verbosity flag. -/
theorem uloop_check_loop_err_eq (M : UloopModel) (v1 v2 : Bool) :
    ∀ (fuel : Nat) (cs1 cs2 : CycleState), coreOf cs1 = coreOf cs2 →
      errPart (uloop_check_loop M v1 fuel cs1) =
        errPart (uloop_check_loop M v2 fuel cs2) := by
  intro fuel
  induction fuel with
  | zero =>
      intro cs1 cs2 h
      simp only [coreOf, Prod.mk.injEq] at h
      simp [uloop_check_loop, errPart, h.2.2.2.2]
  | succ n ih =>
      intro cs1 cs2 h
      have hc := uloop_cycle_core_eq M v1 v2 cs1 cs2 h
      simp only [uloop_check_loop]
      rcases h1 : uloop_cycle M v1 cs1 with cs1' | cs1' | cs1' <;>
        rcases h2 : uloop_cycle M v2 cs2 with cs2' | cs2' | cs2' <;>
          rw [h1, h2] at hc <;>
            simp [tagOf, CycleOut.cstate] at hc
      · exact ih cs1' cs2' hc
      · simp only [coreOf, Prod.mk.injEq] at hc
        simp [errPart, hc.2.2.2.2]

/-- One cycle increments the error counter by at most one. -/
theorem uloop_cycle_err_le (M : UloopModel) (v : Bool) (cs : CycleState) :
    cs.err ≤ (uloop_cycle M v cs).cstate.err ∧
      (uloop_cycle M v cs).cstate.err ≤ cs.err + 1 := by
  obtain ⟨regs, st, gen, href, err, log⟩ := cs
  unfold uloop_cycle
  rcases hr : M.uloop_state_machine st with ⟨e, en, bu, s'⟩
  cases bu
  · cases hp : pullVals gen href with
    | none => cases en <;> simp [hp, CycleOut.cstate]
    | some h =>
        cases en <;>
          by_cases hv : h = vals4 (if e = true then M.uloop_execute st regs else regs) <;>
            simp [hp, hv, CycleOut.cstate]
  · cases en <;> simp [CycleOut.cstate]

/-- A cycle that reports `busy` leaves the error counter unchanged. -/
theorem uloop_cycle_busy_err (M : UloopModel) (v : Bool) (cs : CycleState)
    (hb : busyOf M cs = true) :
    (uloop_cycle M v cs).cstate.err = cs.err := by
  obtain ⟨regs, st, gen, href, err, log⟩ := cs
  unfold busyOf at hb
  unfold uloop_cycle
  rcases hr : M.uloop_state_machine st with ⟨e, en, bu, s'⟩
  rw [hr] at hb
  simp only at hb
  subst hb
  cases en <;> simp [CycleOut.cstate]

/-- The loop adds at most one error per remaining cycle to the entry count. -/
theorem uloop_check_loop_err_le (M : UloopModel) (v : Bool) :
    ∀ (fuel : Nat) (cs : CycleState) (e : Nat) (l : List LogEvent),
      uloop_check_loop M v fuel cs = .ok e l → e ≤ cs.err + fuel := by
  intro fuel
  induction fuel with
  | zero =>
      intro cs e l h
      simp only [uloop_check_loop, RunResult.ok.injEq] at h
      omega
  | succ n ih =>
      intro cs e l h
      have hle := uloop_cycle_err_le M v cs
      simp only [uloop_check_loop] at h
      rcases h1 : uloop_cycle M v cs with cs' | cs' | cs' <;>
        rw [h1] at h hle <;> simp only [CycleOut.cstate] at h hle
      · have := ih cs' e l h
        omega
      · simp only [RunResult.ok.injEq] at h
        omega
      · simp at h

/-! ## Claims -/

/-- C1: for every configuration and every behaviour of the `uloop_common`
collaborators, each iteration of `uloop_check`'s cycle loop follows exactly
the claimed order — candidate from the pre-cycle state via the executor;
FSM advance to `(execute, end, busy, newState)`; commit iff `execute`;
when not `busy`, pull one reference value and compare the four accumulators,
incrementing the error counter on mismatch; early stop on `end` — i.e. the
source driver coincides, per cycle and over a whole run, with the
specification-worded five-phase driver. -/
theorem uloop_c1_driver_order (M : UloopModel) (nb_iter : Nat)
    (iter_stride one_stride : Int) (verbose : Bool) :
    (∀ cs, uloop_cycle_spec M verbose cs = uloop_cycle M verbose cs) ∧
      uloop_check_spec M nb_iter iter_stride one_stride verbose =
        uloop_check M nb_iter iter_stride one_stride verbose := by
  constructor
  · intro cs
    exact uloop_cycle_spec_eq M verbose cs
  · unfold uloop_check_spec uloop_check
    exact uloop_check_loop_spec_eq M verbose 1000 _

/-- C2: for `nb_iter ≥ 1` the reference generator yields exactly
`nb_iter - 1` tuples, and the `k`-th tuple (`k` counted from 1) carries
accumulators `a = b = k * iter_stride`, `c = d = k * one_stride` (and loop
counter `k - 1`); in particular the all-zero initial iteration, which would
be the `k = 0` entry, is never emitted. -/
theorem uloop_c2_ref_gen (nb_iter : Nat) (iter_stride one_stride : Int)
    (_h : 1 ≤ nb_iter) :
    (iterate_hl_loop nb_iter iter_stride one_stride).length = nb_iter - 1 ∧
      ∀ k : Nat, 1 ≤ k → k ≤ nb_iter - 1 →
        (iterate_hl_loop nb_iter iter_stride one_stride)[k - 1]? =
          some ((k : Int) * iter_stride, (k : Int) * iter_stride,
            (k : Int) * one_stride, (k : Int) * one_stride, k - 1) := by
  constructor
  · exact iterate_hl_loop_aux_length iter_stride one_stride (nb_iter - 1) 0 0 0 0 0
  · intro k hk1 hk2
    have hj : k - 1 < nb_iter - 1 := by omega
    have := iterate_hl_loop_aux_getElem iter_stride one_stride (nb_iter - 1) (k - 1)
      hj 0 0 0 0 0
    rw [iterate_hl_loop, this]
    have hcast : ((k - 1 : Nat) : Int) + 1 = (k : Int) := by
      omega
    simp [hcast]

/-- Witness for C2 at the concrete configuration
`(nb_iter, iter_stride, one_stride) = (4, 5, 7)`, `k = 3`. -/
theorem uloop_c2_ref_gen_witness :
    (iterate_hl_loop 4 5 7).length = 4 - 1 ∧
      (iterate_hl_loop 4 5 7)[3 - 1]? =
        some (((3 : Nat) : Int) * 5, ((3 : Nat) : Int) * 5,
          ((3 : Nat) : Int) * 7, ((3 : Nat) : Int) * 7, 3 - 1) :=
  ⟨(uloop_c2_ref_gen 4 5 7 (by norm_num)).1,
    (uloop_c2_ref_gen 4 5 7 (by norm_num)).2 3 (by norm_num) (by norm_num)⟩

/-- C3: with `nb_iter = 1` and the spec-modelled collaborators, `uloop_check`
returns an error count of zero (with no diagnostic output), and the FSM trace
the driver runs contains no non-busy cycle, i.e. no comparison beyond the
initial all-zero state ever takes place. -/
theorem uloop_c3_nbiter_one (iter_stride one_stride : Int) (verbose : Bool) :
    uloop_check (specModel 1) 1 iter_stride one_stride verbose =
        RunResult.ok 0 [] ∧
      (fsm_driver_trace (specModel 1) 1000 init_state).filter
          (fun t => !t.2.2) = [] := by
  constructor
  · rfl
  · decide

/-- C9: the result of `uloop_check` is a pure function of its arguments —
two consecutive runs with the same collaborators and the same configuration
(including verbosity) return identical results, in particular identical
error counts; the embedding threads no state from one run into the next. -/
theorem uloop_c9_deterministic (M : UloopModel) (nb_iter : Nat)
    (iter_stride one_stride : Int) (verbose : Bool) :
    (run_twice M nb_iter iter_stride one_stride verbose).1 =
        (run_twice M nb_iter iter_stride one_stride verbose).2 ∧
      errPart (run_twice M nb_iter iter_stride one_stride verbose).1 =
        errPart (run_twice M nb_iter iter_stride one_stride verbose).2 :=
  ⟨rfl, rfl⟩

/-- C7: a mismatch at a non-busy cycle increments the error counter whatever
the verbosity flag — `err += 1` sits outside the `if verbose` block — and the
returned error count (including whether the run crashes) is the same for any
two verbosity settings; verbosity influences only the diagnostic log. -/
theorem uloop_c7_verbose_only_prints (M : UloopModel) (verbose : Bool)
    (cs : CycleState) (nb_iter : Nat) (iter_stride one_stride : Int) (r : Vals)
    (hbusy : busyOf M cs = false)
    (hpull : pullVals cs.gen cs.href = some r)
    (hneq : r ≠ vals4 (committedOf M cs)) :
    (uloop_cycle M verbose cs).cstate.err = cs.err + 1 ∧
      (uloop_cycle M verbose cs).cstate.err =
        (uloop_cycle M false cs).cstate.err ∧
      errPart (uloop_check M nb_iter iter_stride one_stride verbose) =
        errPart (uloop_check M nb_iter iter_stride one_stride false) := by
  refine ⟨?_, ?_, ?_⟩
  · obtain ⟨regs, st, gen, href, err, log⟩ := cs
    unfold busyOf at hbusy
    unfold committedOf at hneq
    unfold uloop_cycle
    rcases hr : M.uloop_state_machine st with ⟨e, en, bu, s'⟩
    rw [hr] at hbusy hneq
    simp only at hbusy hneq
    subst hbusy
    simp only at hpull
    cases en <;> simp [hpull, hneq, CycleOut.cstate]
  · have hc := (uloop_cycle_core_eq M verbose false cs cs rfl).2
    simp only [coreOf, Prod.mk.injEq] at hc
    exact hc.2.2.2.2
  · exact uloop_check_loop_err_eq M verbose false 1000 _ _ rfl

/-- Witness for C7: the spec-modelled machine at `nb_iter = 2`, started from
a corrupted register file `(5,0,0,0)`, increments the error counter on its
first (non-busy, mismatching) cycle even with `verbose = false`, and the
error count of a full verbose run equals that of the non-verbose run. -/
theorem uloop_c7_verbose_only_prints_witness :
    (uloop_cycle (specModel 2) false
          ⟨⟨5, 0, 0, 0, 2, 1, 1⟩, init_state, iterate_hl_loop 2 1 1, none, 0, []⟩
        ).cstate.err =
        (⟨⟨5, 0, 0, 0, 2, 1, 1⟩, init_state, iterate_hl_loop 2 1 1, none, 0, []⟩ :
          CycleState).err + 1 ∧
      (uloop_cycle (specModel 2) false
          ⟨⟨5, 0, 0, 0, 2, 1, 1⟩, init_state, iterate_hl_loop 2 1 1, none, 0, []⟩
        ).cstate.err =
        (uloop_cycle (specModel 2) false
          ⟨⟨5, 0, 0, 0, 2, 1, 1⟩, init_state, iterate_hl_loop 2 1 1, none, 0, []⟩
        ).cstate.err ∧
      errPart (uloop_check (specModel 2) 2 1 1 false) =
        errPart (uloop_check (specModel 2) 2 1 1 false) :=
  uloop_c7_verbose_only_prints (specModel 2) false
    ⟨⟨5, 0, 0, 0, 2, 1, 1⟩, init_state, iterate_hl_loop 2 1 1, none, 0, []⟩
    2 1 1 (1, 1, 1, 1) (by decide) (by decide) (by decide)

/-- C8: at a non-busy cycle attempted after the generator is exhausted, given
that some value was pulled successfully before, the driver keeps the
last-pulled reference values for the comparison, raises no fatal failure,
and counts an error exactly when the committed accumulators differ from
those kept values. -/
theorem uloop_c8_exhaustion_keeps_last (M : UloopModel) (verbose : Bool)
    (cs : CycleState) (r : Vals)
    (hgen : cs.gen = []) (hhref : cs.href = some r)
    (hbusy : busyOf M cs = false) :
    (uloop_cycle M verbose cs).isCrash = false ∧
      (uloop_cycle M verbose cs).cstate.href = some r ∧
      (uloop_cycle M verbose cs).cstate.gen = [] ∧
      (uloop_cycle M verbose cs).cstate.err =
        (if r ≠ vals4 (committedOf M cs) then cs.err + 1 else cs.err) := by
  obtain ⟨regs, st, gen, href, err, log⟩ := cs
  simp only at hgen hhref
  subst hgen
  subst hhref
  unfold busyOf at hbusy
  unfold committedOf
  unfold uloop_cycle
  rcases hr : M.uloop_state_machine st with ⟨e, en, bu, s'⟩
  rw [hr] at hbusy
  simp only at hbusy
  subst hbusy
  by_cases hv : r = vals4 (if e = true then M.uloop_execute st regs else regs)
  · cases en <;> simp [pullVals, genAfterPull, hv, CycleOut.cstate, CycleOut.isCrash]
  · cases en <;> simp [pullVals, genAfterPull, hv, CycleOut.cstate, CycleOut.isCrash]

/-- Witness for C8: the spec-modelled machine at `nb_iter = 3`, one settled
iteration in, with the generator already exhausted and `(1,1,1,1)` the last
pulled values: the cycle keeps them, does not crash, and (the committed
registers being `(3,3,3,3)`) counts one error. -/
theorem uloop_c8_exhaustion_keeps_last_witness :
    (uloop_cycle (specModel 3) false
          ⟨⟨2, 2, 2, 2, 3, 1, 1⟩, ⟨0, 0, 0, [1]⟩, [], some (1, 1, 1, 1), 0, []⟩
        ).isCrash = false ∧
      (uloop_cycle (specModel 3) false
          ⟨⟨2, 2, 2, 2, 3, 1, 1⟩, ⟨0, 0, 0, [1]⟩, [], some (1, 1, 1, 1), 0, []⟩
        ).cstate.href = some (1, 1, 1, 1) ∧
      (uloop_cycle (specModel 3) false
          ⟨⟨2, 2, 2, 2, 3, 1, 1⟩, ⟨0, 0, 0, [1]⟩, [], some (1, 1, 1, 1), 0, []⟩
        ).cstate.gen = [] ∧
      (uloop_cycle (specModel 3) false
          ⟨⟨2, 2, 2, 2, 3, 1, 1⟩, ⟨0, 0, 0, [1]⟩, [], some (1, 1, 1, 1), 0, []⟩
        ).cstate.err =
        (if (1, 1, 1, 1) ≠ vals4 (committedOf (specModel 3)
            ⟨⟨2, 2, 2, 2, 3, 1, 1⟩, ⟨0, 0, 0, [1]⟩, [], some (1, 1, 1, 1), 0, []⟩) then
          (⟨⟨2, 2, 2, 2, 3, 1, 1⟩, ⟨0, 0, 0, [1]⟩, [], some (1, 1, 1, 1), 0, []⟩ :
            CycleState).err + 1
        else
          (⟨⟨2, 2, 2, 2, 3, 1, 1⟩, ⟨0, 0, 0, [1]⟩, [], some (1, 1, 1, 1), 0, []⟩ :
            CycleState).err) :=
  uloop_c8_exhaustion_keeps_last (specModel 3) false
    ⟨⟨2, 2, 2, 2, 3, 1, 1⟩, ⟨0, 0, 0, [1]⟩, [], some (1, 1, 1, 1), 0, []⟩
    (1, 1, 1, 1) rfl rfl (by decide)

/-- C10: for every configuration and every behaviour of the collaborators, a
run of `uloop_check` that returns does so with an error count between 0 and
1000: the counter starts at zero, each of the at most 1000 cycles adds at
most one. -/
theorem uloop_c10_err_bound (M : UloopModel) (nb_iter : Nat)
    (iter_stride one_stride : Int) (verbose : Bool) (e : Nat) (l : List LogEvent)
    (h : uloop_check M nb_iter iter_stride one_stride verbose = RunResult.ok e l) :
    0 ≤ e ∧ e ≤ 1000 := by
  refine ⟨Nat.zero_le e, ?_⟩
  unfold uloop_check at h
  have := uloop_check_loop_err_le M verbose 1000 _ e l h
  simpa using this

/-- Witness for C10: the spec-modelled run at `(16, 1, 1)` returns error
count 0, which the theorem bounds by 1000. -/
theorem uloop_c10_err_bound_witness :
    uloop_check (specModel 16) 16 1 1 false = RunResult.ok 0 [] ∧
      (0 ≤ 0 ∧ 0 ≤ 1000) :=
  ⟨by decide, uloop_c10_err_bound (specModel 16) 16 1 1 false 0 [] (by decide)⟩

/-- C4 (evidence of the code bug): with the stride-corrupted executor of
specification section 8.6, the sweep stops at `(nb_iter=16, iter_stride=16)`,
the verbose diagnostic rerun returns the nonzero error count 15 — yet the
process exit status is 0, because the script never maps the error count to
an exit status. -/
theorem uloop_c4_exit_status :
    (module_main (check_of swapModel)).calls =
        [(16, 1, 1, false), (16, 16, 1, false), (16, 16, 1, true)] ∧
      (module_main (check_of swapModel)).finalErr = 15 ∧
      (module_main (check_of swapModel)).exitCode = 0 := by
  refine ⟨by decide, by decide, by decide⟩

set_option maxRecDepth 100000

/-- C5 (evidence of the code bug): with the spec-modelled machine at
`nb_iter = 2000` the FSM never reports `end = true` within the 1000-cycle
budget, yet `uloop_check` returns the plain result `ok 0 []` — byte-for-byte
the same value a genuinely successful run (here `(16,1,1)`) returns; no
`BudgetExceeded` condition distinct from the error count exists in the
driver's result. -/
theorem uloop_c5_budget_silent :
    fsm_end_within (specModel 2000) 1000 init_state = false ∧
      uloop_check (specModel 2000) 2000 1 1 false = RunResult.ok 0 [] ∧
      uloop_check (specModel 16) 16 1 1 false = RunResult.ok 0 [] := by
  refine ⟨by decide, by decide, by decide⟩

/-- C6: for every behaviour of `uloop_check`, the sweep runs the matrix
`nb_iter ∈ (16,32,64)` outer × `iter_stride ∈ (1,16,32)` inner, always with
`one_stride = 1`, stops at the first configuration returning a nonzero error
count, reruns exactly that configuration once with verbose diagnostics, and
performs no rerun when no configuration fails. -/
theorem uloop_c6_sweep_order (check : Nat → Int → Int → Bool → Nat) :
    (module_main check).calls = sweepSpecCalls check := by
  by_cases h1 : 0 < check 16 1 1 false
  · simp [module_main, sweep_outer, sweep_inner, sweepSpecCalls, sweepCfgs, failsAt, h1]
  · by_cases h2 : 0 < check 16 16 1 false
    · simp [module_main, sweep_outer, sweep_inner, sweepSpecCalls, sweepCfgs, failsAt,
        h1, h2]
    · by_cases h3 : 0 < check 16 32 1 false
      · simp [module_main, sweep_outer, sweep_inner, sweepSpecCalls, sweepCfgs, failsAt,
          h1, h2, h3]
      · by_cases h4 : 0 < check 32 1 1 false
        · simp [module_main, sweep_outer, sweep_inner, sweepSpecCalls, sweepCfgs, failsAt,
            h1, h2, h3, h4]
        · by_cases h5 : 0 < check 32 16 1 false
          · simp [module_main, sweep_outer, sweep_inner, sweepSpecCalls, sweepCfgs,
              failsAt, h1, h2, h3, h4, h5]
          · by_cases h6 : 0 < check 32 32 1 false
            · simp [module_main, sweep_outer, sweep_inner, sweepSpecCalls, sweepCfgs,
                failsAt, h1, h2, h3, h4, h5, h6]
            · by_cases h7 : 0 < check 64 1 1 false
              · simp [module_main, sweep_outer, sweep_inner, sweepSpecCalls, sweepCfgs,
                  failsAt, h1, h2, h3, h4, h5, h6, h7]
              · by_cases h8 : 0 < check 64 16 1 false
                · simp [module_main, sweep_outer, sweep_inner, sweepSpecCalls, sweepCfgs,
                    failsAt, h1, h2, h3, h4, h5, h6, h7, h8]
                · by_cases h9 : 0 < check 64 32 1 false
                  · simp [module_main, sweep_outer, sweep_inner, sweepSpecCalls,
                      sweepCfgs, failsAt, h1, h2, h3, h4, h5, h6, h7, h8, h9]
                  · simp [module_main, sweep_outer, sweep_inner, sweepSpecCalls,
                      sweepCfgs, failsAt, h1, h2, h3, h4, h5, h6, h7, h8, h9]
